import Mathlib

/-!
Shallow embedding of the orientation-to-display pipeline of the
LESSERAFIM-CAMERA repository.

JavaScript numbers are modelled as exact rationals (`ℚ`); timestamps as
`ℚ` (milliseconds).  `Math.round` is modelled by `jsRound` below
(JavaScript rounds halves toward positive infinity).  Event-listener
registration and `console` logging are not observable state and are not
modelled; callback fan-out is modelled by returning the list of broadcast
notification events a call emits (each event reaches every registered
subscriber once, in registration order, with throwing subscribers caught).
-/

/-- JavaScript `Math.round`: rounds to the nearest integer, halves toward
positive infinity, i.e. `⌊x + 1/2⌋`. -/
def jsRound (q : ℚ) : ℤ := ⌊q + 1/2⌋

/-- A `deviceorientation` event payload `{alpha, beta, gamma}`.  The
platform event interface delivers each axis as a number or `null`
(`none`). -/
structure OrientationEventData where
  alpha : Option ℚ
  beta : Option ℚ
  gamma : Option ℚ
deriving DecidableEq

/-- The mutable fields of `OrientationManager` (src/managers/OrientationManager.js,
constructor).  Callback arrays are not stored: notifications are modelled
as explicit event lists returned by the operations. -/
structure OrientationManager where
  isPermissionGranted : Bool
  isTracking : Bool
  isVerticalOrientation : Bool
  orientationMessageVisible : Bool
  referenceHorizon : ℚ
  currentOrientation : ℚ
  currentRaw : ℚ
  currentSmoothed : ℚ
  deltaFromReference : ℚ
  lastUpdate : ℚ
  smoothingFactor : ℚ
  verticalThreshold : ℚ
deriving DecidableEq

/-- `new OrientationManager()` (constructor defaults). -/
def OrientationManager.new : OrientationManager where
  isPermissionGranted := false
  isTracking := false
  isVerticalOrientation := false
  orientationMessageVisible := false
  referenceHorizon := 0
  currentOrientation := 0
  currentRaw := 0
  currentSmoothed := 0
  deltaFromReference := 0
  lastUpdate := 0
  smoothingFactor := 1/5
  verticalThreshold := 30

/-- `getCurrentRelativeOrientation`, first loop:
`while (relative > 180) relative -= 360`. -/
def relWhileGt (r : ℚ) : ℚ :=
  if 180 < r then relWhileGt (r - 360) else r
termination_by (⌈(r - 180) / 360⌉).toNat
decreasing_by
  have hx : (0 : ℚ) < (r - 180) / 360 := by
    apply div_pos <;> linarith
  have h1 : (1 : ℤ) ≤ ⌈(r - 180) / 360⌉ := Int.ceil_pos.mpr hx
  have h2 : (r - 360 - 180) / 360 = (r - 180) / 360 - (1 : ℤ) := by
    push_cast; ring
  rw [h2, Int.ceil_sub_int]
  omega

/-- `getCurrentRelativeOrientation`, second loop:
`while (relative < -180) relative += 360`. -/
def relWhileLt (r : ℚ) : ℚ :=
  if r < -180 then relWhileLt (r + 360) else r
termination_by (-⌊(r + 180) / 360⌋).toNat
decreasing_by
  have hx : (r + 180) / 360 < 0 := by
    apply div_neg_of_neg_of_pos <;> linarith
  have h1 : ⌊(r + 180) / 360⌋ ≤ -1 := by
    have hle : (⌊(r + 180) / 360⌋ : ℚ) ≤ (r + 180) / 360 := Int.floor_le _
    have h0 : (⌊(r + 180) / 360⌋ : ℚ) < 0 := lt_of_le_of_lt hle hx
    have h0' : ⌊(r + 180) / 360⌋ < 0 := by exact_mod_cast h0
    omega
  have h2 : (r + 360 + 180) / 360 = (r + 180) / 360 + (1 : ℤ) := by
    push_cast; ring
  rw [h2, Int.floor_add_int]
  omega

/-- `getCurrentRelativeOrientation()`: `relative = currentOrientation -
referenceHorizon`, then the two normalization loops. -/
def OrientationManager.getCurrentRelativeOrientation (m : OrientationManager) : ℚ :=
  relWhileLt (relWhileGt (m.currentOrientation - m.referenceHorizon))

/-- One-step unfolding: the first loop body does not run when the value is
already at most 180. -/
theorem relWhileGt_of_le {r : ℚ} (h : r ≤ 180) : relWhileGt r = r := by
  rw [relWhileGt]
  simp [not_lt.mpr h]

/-- One-step unfolding: the first loop body runs while the value exceeds 180. -/
theorem relWhileGt_of_gt {r : ℚ} (h : 180 < r) : relWhileGt r = relWhileGt (r - 360) := by
  rw [relWhileGt]
  simp [h]

/-- One-step unfolding: the second loop body does not run when the value is
already at least −180. -/
theorem relWhileLt_of_ge {r : ℚ} (h : -180 ≤ r) : relWhileLt r = r := by
  rw [relWhileLt]
  simp [not_lt.mpr h]

/-- One-step unfolding: the second loop body runs while the value is below −180. -/
theorem relWhileLt_of_lt {r : ℚ} (h : r < -180) : relWhileLt r = relWhileLt (r + 360) := by
  rw [relWhileLt]
  simp [h]

/-- The snapshot object passed to every orientation-change subscriber. -/
structure OrientationSnapshot where
  raw : ℚ
  smoothed : ℚ
  current : ℚ
  deltaFromReference : ℚ
  referenceHorizon : ℚ
  timestamp : ℚ
deriving DecidableEq

/-- `handleOrientationChange(event)`.  `now` is the value of `Date.now()`
during the call.  Returns the updated manager and the orientation-change
broadcast (`none` when the sample is dropped; each broadcast reaches every
registered orientation subscriber once). -/
def OrientationManager.handleOrientationChange (m : OrientationManager)
    (event : OrientationEventData) (now : ℚ) :
    OrientationManager × Option OrientationSnapshot :=
  match event.alpha with
  | none => (m, none)
  | some a =>
    if !m.isVerticalOrientation then (m, none)
    else
      let currentRaw := a
      let orientation := if a < 0 then a + 360 else a
      let currentSmoothed :=
        if m.currentSmoothed = 0 then orientation
        else m.currentSmoothed * (1 - m.smoothingFactor) + orientation * m.smoothingFactor
      let m' : OrientationManager :=
        { m with
          currentRaw := currentRaw
          currentSmoothed := currentSmoothed
          currentOrientation := currentSmoothed
          lastUpdate := now }
      let m'' := { m' with deltaFromReference := m'.getCurrentRelativeOrientation }
      (m'', some
        { raw := m''.currentRaw
          smoothed := m''.currentSmoothed
          current := m''.currentOrientation
          deltaFromReference := m''.deltaFromReference
          referenceHorizon := m''.referenceHorizon
          timestamp := m''.lastUpdate })

/-- `setReferenceHorizon(orientation = null)`: stores the given value, or
`currentOrientation` when called without an argument, then recomputes
`deltaFromReference`. -/
def OrientationManager.setReferenceHorizon (m : OrientationManager)
    (orientation : Option ℚ) : OrientationManager :=
  let m' :=
    match orientation with
    | some v => { m with referenceHorizon := v }
    | none => { m with referenceHorizon := m.currentOrientation }
  { m' with deltaFromReference := m'.getCurrentRelativeOrientation }

/-- `setSmoothingFactor(factor)`: accepts only `0.1 ≤ factor ≤ 0.3`,
otherwise leaves the prior value. -/
def OrientationManager.setSmoothingFactor (m : OrientationManager)
    (factor : ℚ) : OrientationManager :=
  if 1/10 ≤ factor ∧ factor ≤ 3/10 then { m with smoothingFactor := factor }
  else m

/-- A vertical-state broadcast: the boolean passed to the subscribers and
the optional `action` string. -/
def VerticalNotif := Bool × Option String
deriving instance DecidableEq for VerticalNotif

/-- `showOrientationMessage()`. -/
def OrientationManager.showOrientationMessage (m : OrientationManager) :
    OrientationManager × List VerticalNotif :=
  if m.orientationMessageVisible then (m, [])
  else ({ m with orientationMessageVisible := true }, [(false, some "show_message")])

/-- `hideOrientationMessage()`. -/
def OrientationManager.hideOrientationMessage (m : OrientationManager) :
    OrientationManager × List VerticalNotif :=
  if !m.orientationMessageVisible then (m, [])
  else ({ m with orientationMessageVisible := false }, [(true, some "hide_message")])

/-- `checkDeviceOrientation()`.  `screenVertical` is the portrait/landscape
answer the surrounding platform produces (screen-orientation angle 0/180,
or the window-dimension fallback).  Returns the updated manager and the
vertical-state broadcasts emitted. -/
def OrientationManager.checkDeviceOrientation (m : OrientationManager)
    (screenVertical : Bool) : OrientationManager × List VerticalNotif :=
  let wasVertical := m.isVerticalOrientation
  let m1 := { m with isVerticalOrientation := screenVertical }
  if wasVertical ≠ screenVertical then
    let changeNotifs : List VerticalNotif := [(screenVertical, none)]
    let m2 :=
      if screenVertical ∧ m1.currentOrientation ≠ 0 then
        m1.setReferenceHorizon (some m1.currentOrientation)
      else m1
    let (m3, msgNotifs) :=
      if screenVertical then m2.hideOrientationMessage else m2.showOrientationMessage
    (m3, changeNotifs ++ msgNotifs)
  else (m1, [])

/-- `startContinuousMonitoring()`: refuses without permission; otherwise
attaches the platform listeners (not observable state), runs the initial
`checkDeviceOrientation()`, and sets `isTracking`. -/
def OrientationManager.startContinuousMonitoring (m : OrientationManager)
    (screenVertical : Bool) : OrientationManager × List VerticalNotif :=
  if !m.isPermissionGranted then (m, [])
  else
    let (m1, notifs) := m.checkDeviceOrientation screenVertical
    ({ m1 with isTracking := true }, notifs)

/-- The platform permission environment `initialize()` runs against:
the sensor API may be absent entirely, the iOS-style request capability may
be absent, or the request resolves to a permission string or rejects. -/
inductive PermissionEnv where
  | unsupported
  | noRequestCapability
  | resolves (permission : String)
  | rejects
deriving DecidableEq

/-- Result of `requestPermissionImmediately()`: the updated manager, the
returned boolean, and the permission broadcasts emitted (each broadcast
reaches every registered permission subscriber once, with the boolean). -/
structure PermissionRequestResult where
  state : OrientationManager
  granted : Bool
  permissionNotifs : List Bool
deriving DecidableEq

/-- `requestPermissionImmediately()`.  With the request capability present,
only the exact string `"granted"` counts as granted; a rejected request is
caught and treated as denial; without the capability permission is assumed
granted.  When the sensor API is absent entirely, reading
`DeviceOrientationEvent.requestPermission` throws, which the `catch` turns
into a denial. -/
def OrientationManager.requestPermissionImmediately (m : OrientationManager)
    (env : PermissionEnv) : PermissionRequestResult :=
  match env with
  | .resolves permission =>
    let g := permission = "granted"
    { state := { m with isPermissionGranted := g }, granted := g, permissionNotifs := [g] }
  | .rejects =>
    { state := { m with isPermissionGranted := false }, granted := false,
      permissionNotifs := [false] }
  | .noRequestCapability =>
    { state := { m with isPermissionGranted := true }, granted := true,
      permissionNotifs := [true] }
  | .unsupported =>
    { state := { m with isPermissionGranted := false }, granted := false,
      permissionNotifs := [false] }

/-- Result of `initialize()`: final manager state, the returned boolean,
the permission broadcasts, and the vertical-state broadcasts. -/
structure InitResult where
  state : OrientationManager
  ok : Bool
  permissionNotifs : List Bool
  verticalNotifs : List VerticalNotif
deriving DecidableEq

/-- `initialize()` (named `initManager` here because the source name is a
reserved word in Lean).  When the sensor API is absent the guard throws and
the `catch` returns `false` without notifying anyone; otherwise the
permission request runs, a granted result starts monitoring, and a
non-granted result notifies the permission subscribers with `false` a
second time before returning `false`. -/
def OrientationManager.initManager (m : OrientationManager)
    (env : PermissionEnv) (screenVertical : Bool) : InitResult :=
  match env with
  | .unsupported => { state := m, ok := false, permissionNotifs := [], verticalNotifs := [] }
  | e =>
    let r := m.requestPermissionImmediately e
    if r.granted then
      let (m1, vnotifs) := r.state.startContinuousMonitoring screenVertical
      { state := m1, ok := true, permissionNotifs := r.permissionNotifs,
        verticalNotifs := vnotifs }
    else
      { state := r.state, ok := false,
        permissionNotifs := r.permissionNotifs ++ [false], verticalNotifs := [] }

/-- `stopTracking()`. -/
def OrientationManager.stopTracking (m : OrientationManager) : OrientationManager :=
  if m.isTracking then { m with isTracking := false } else m

/-!  AngelDisplaySystem (src/systems/AngelDisplaySystem.js).  The Phaser
scene is modelled by `RenderHost`: a resource allocator for the sprite and
text primitives the system creates, with their positions, text contents,
and the animated-transition requests (`scene.tweens.add`).  The camera
viewport dimensions live on the system state (`sceneWidth`/`sceneHeight`).
Styling constants (`textStyle`) have no observable behaviour and are not
modelled. -/

/-- The render-host capability interface: destroyable positioned visual
primitives, destroyable text primitives, and a tween primitive. -/
structure RenderHost where
  nextId : ℕ
  live : List ℕ
  positions : List (ℕ × ℚ × ℚ)
  texts : List (ℕ × String)
  tweens : List (ℕ × ℚ × ℚ)
deriving DecidableEq

/-- A host with no resources. -/
def RenderHost.empty : RenderHost where
  nextId := 0
  live := []
  positions := []
  texts := []
  tweens := []

/-- `scene.add.image(x, y, key)`: allocates a visual primitive. -/
def RenderHost.addImage (h : RenderHost) (x y : ℚ) : ℕ × RenderHost :=
  (h.nextId,
    { h with
      nextId := h.nextId + 1
      live := h.live ++ [h.nextId]
      positions := h.positions ++ [(h.nextId, x, y)] })

/-- `scene.add.text(x, y, s, style)`: allocates a text primitive. -/
def RenderHost.addText (h : RenderHost) (x y : ℚ) (s : String) : ℕ × RenderHost :=
  (h.nextId,
    { h with
      nextId := h.nextId + 1
      live := h.live ++ [h.nextId]
      positions := h.positions ++ [(h.nextId, x, y)]
      texts := h.texts ++ [(h.nextId, s)] })

/-- `obj.setText(s)` on a text primitive. -/
def RenderHost.setText (h : RenderHost) (id : ℕ) (s : String) : RenderHost :=
  { h with texts := h.texts.map fun p => if p.1 = id then (id, s) else p }

/-- Direct assignment of `obj.x` / `obj.y`. -/
def RenderHost.setPosition (h : RenderHost) (id : ℕ) (x y : ℚ) : RenderHost :=
  { h with positions := h.positions.map fun p => if p.1 = id then (id, x, y) else p }

/-- `scene.tweens.add({targets, x, y, duration: 50, ease: Linear})`:
records the requested animated transition. -/
def RenderHost.addTween (h : RenderHost) (id : ℕ) (x y : ℚ) : RenderHost :=
  { h with tweens := h.tweens ++ [(id, x, y)] }

/-- `obj.destroy()` on a primitive: releases the resource. -/
def RenderHost.destroyRes (h : RenderHost) (id : ℕ) : RenderHost :=
  { h with
    live := h.live.filter (· ≠ id)
    positions := h.positions.filter (·.1 ≠ id)
    texts := h.texts.filter (·.1 ≠ id) }

/-- The `currentAngel` object built by `createAngelSprite`. -/
structure Angel where
  horizontalAngle : ℚ
  verticalAngle : ℚ
  sprite : ℕ
  scale : ℚ
  screenX : ℚ
  screenY : ℚ
  isVisible : Bool
  alphaValue : ℚ
  name : String
  type : String
  horizontalTextRef : Option ℕ
  verticalTextRef : Option ℕ
deriving DecidableEq

/-- The fields of `AngelDisplaySystem` plus its render host. -/
structure AngelDisplaySystem where
  host : RenderHost
  sceneWidth : ℚ
  sceneHeight : ℚ
  currentAngel : Option Angel
  horizontalAngle : ℚ
  verticalAngle : ℚ
  angelSprite : Option ℕ
  horizontalText : Option ℕ
  verticalText : Option ℕ
  displayUpdateRate : ℚ
  smoothingEnabled : Bool
  angleResolution : ℚ
  horizontalRangeMin : ℚ
  horizontalRangeMax : ℚ
  verticalRangeMin : ℚ
  verticalRangeMax : ℚ
  lastUpdateTime : ℚ
  updateInterval : ℚ
deriving DecidableEq

/-- `new AngelDisplaySystem(scene)` with a viewport of the given size. -/
def AngelDisplaySystem.new (w h : ℚ) : AngelDisplaySystem where
  host := RenderHost.empty
  sceneWidth := w
  sceneHeight := h
  currentAngel := none
  horizontalAngle := 0
  verticalAngle := 0
  angelSprite := none
  horizontalText := none
  verticalText := none
  displayUpdateRate := 60
  smoothingEnabled := true
  angleResolution := 1
  horizontalRangeMin := 0
  horizontalRangeMax := 360
  verticalRangeMin := -90
  verticalRangeMax := 90
  lastUpdateTime := 0
  updateInterval := 1000 / 60

/-- `handleAngleWrapAround`, first loop: `while (angle >= 360) angle -= 360`. -/
def wrapWhileGe (a : ℚ) : ℚ :=
  if 360 ≤ a then wrapWhileGe (a - 360) else a
termination_by (⌊a / 360⌋).toNat
decreasing_by
  have h1 : (1 : ℤ) ≤ ⌊a / 360⌋ := by
    rw [Int.le_floor]
    rw [le_div_iff₀ (by norm_num : (0:ℚ) < 360)]
    push_cast; linarith
  have h2 : (a - 360) / 360 = a / 360 - (1 : ℤ) := by
    push_cast; ring
  rw [h2, Int.floor_sub_int]
  omega

/-- `handleAngleWrapAround`, second loop: `while (angle < 0) angle += 360`. -/
def wrapWhileNeg (a : ℚ) : ℚ :=
  if a < 0 then wrapWhileNeg (a + 360) else a
termination_by (-⌊a / 360⌋).toNat
decreasing_by
  have h1 : ⌊a / 360⌋ ≤ -1 := by
    have hx : a / 360 < 0 := div_neg_of_neg_of_pos (by linarith) (by norm_num)
    have hle : (⌊a / 360⌋ : ℚ) ≤ a / 360 := Int.floor_le _
    have h0 : (⌊a / 360⌋ : ℚ) < 0 := lt_of_le_of_lt hle hx
    have h0' : ⌊a / 360⌋ < 0 := by exact_mod_cast h0
    omega
  have h2 : (a + 360) / 360 = a / 360 + (1 : ℤ) := by
    push_cast; ring
  rw [h2, Int.floor_add_int]
  omega

/-- One-step unfolding lemmas for the wrap-around loops. -/
theorem wrapWhileGe_of_lt {a : ℚ} (h : a < 360) : wrapWhileGe a = a := by
  rw [wrapWhileGe]
  simp [not_le.mpr h]

theorem wrapWhileGe_of_ge {a : ℚ} (h : 360 ≤ a) : wrapWhileGe a = wrapWhileGe (a - 360) := by
  rw [wrapWhileGe]
  simp [h]

theorem wrapWhileNeg_of_ge {a : ℚ} (h : 0 ≤ a) : wrapWhileNeg a = a := by
  rw [wrapWhileNeg]
  simp [not_lt.mpr h]

theorem wrapWhileNeg_of_lt {a : ℚ} (h : a < 0) : wrapWhileNeg a = wrapWhileNeg (a + 360) := by
  rw [wrapWhileNeg]
  simp [h]

/-- `handleAngleWrapAround(angle)`: both loops in sequence. -/
def AngelDisplaySystem.handleAngleWrapAround (_s : AngelDisplaySystem) (angle : ℚ) : ℚ :=
  wrapWhileNeg (wrapWhileGe angle)

/-- `calculateHorizontalAngle(alpha)`: null/absent → 0, single `+360` for a
negative value, wrap-around, then rounding to the angle resolution. -/
def AngelDisplaySystem.calculateHorizontalAngle (s : AngelDisplaySystem)
    (alpha : Option ℚ) : ℚ :=
  match alpha with
  | none => 0
  | some a =>
    let horizontal := if a < 0 then a + 360 else a
    let horizontal := s.handleAngleWrapAround horizontal
    (jsRound (horizontal / s.angleResolution) : ℚ) * s.angleResolution

/-- `calculateVerticalAngle(beta)`: null/absent → 0, clamp to the vertical
range, then rounding to the angle resolution. -/
def AngelDisplaySystem.calculateVerticalAngle (s : AngelDisplaySystem)
    (beta : Option ℚ) : ℚ :=
  match beta with
  | none => 0
  | some b =>
    let vertical := max s.verticalRangeMin (min s.verticalRangeMax b)
    (jsRound (vertical / s.angleResolution) : ℚ) * s.angleResolution

/-- Spherical coordinates `{horizontal, vertical}`. -/
structure SphericalCoords where
  horizontal : ℚ
  vertical : ℚ
deriving DecidableEq

/-- JavaScript `%` (remainder with the dividend's sign) on rationals. -/
def jsRem (a b : ℚ) : ℚ :=
  a - b * (if 0 ≤ a / b then (⌊a / b⌋ : ℚ) else (⌈a / b⌉ : ℚ))

/-- `normalizeAngles(horizontal, vertical)`: `%`-based horizontal wrap with
negative correction, vertical clamp. -/
def AngelDisplaySystem.normalizeAngles (s : AngelDisplaySystem)
    (horizontal vertical : ℚ) : SphericalCoords :=
  let normalizedHorizontal := jsRem horizontal 360
  let normalizedHorizontal :=
    if normalizedHorizontal < 0 then normalizedHorizontal + 360 else normalizedHorizontal
  { horizontal := normalizedHorizontal
    vertical := max s.verticalRangeMin (min s.verticalRangeMax vertical) }

/-- `convertToSphericalCoordinates(orientation)`. -/
def AngelDisplaySystem.convertToSphericalCoordinates (s : AngelDisplaySystem)
    (orientation : OrientationEventData) : SphericalCoords :=
  let horizontal := s.calculateHorizontalAngle orientation.alpha
  let vertical := s.calculateVerticalAngle orientation.beta
  s.normalizeAngles horizontal vertical

/-- `calculateScreenPosition(horizontal, vertical)`: maps the sphere onto
the viewport. -/
def AngelDisplaySystem.calculateScreenPosition (s : AngelDisplaySystem)
    (horizontal vertical : ℚ) : ℚ × ℚ :=
  let normalizedHorizontal := horizontal / 360
  let x := normalizedHorizontal * s.sceneWidth
  let normalizedVertical := (vertical + 90) / 180
  let y := (1 - normalizedVertical) * s.sceneHeight
  (x, y)

/-- `smoothPositionTransition(fromPos, toPos)`: requests a 50 ms linear
tween toward `toPos`; no-op when the sprite is missing. -/
def AngelDisplaySystem.smoothPositionTransition (s : AngelDisplaySystem)
    (_fromPos toPos : ℚ × ℚ) : AngelDisplaySystem :=
  match s.angelSprite with
  | none => s
  | some id => { s with host := s.host.addTween id toPos.1 toPos.2 }

/-- Sprite coordinates as read back from the render host (`sprite.x`,
`sprite.y`); `(0, 0)` for a resource the host does not know. -/
def RenderHost.positionOf (h : RenderHost) (id : ℕ) : ℚ × ℚ :=
  match h.positions.find? (·.1 = id) with
  | some (_, x, y) => (x, y)
  | none => (0, 0)

/-- `renderAngelAtPosition()`: no-op unless both the sprite and the current
angel exist; otherwise computes the screen position, moves the sprite
(tweened or direct), and stores the position on the angel object. -/
def AngelDisplaySystem.renderAngelAtPosition (s : AngelDisplaySystem) : AngelDisplaySystem :=
  match s.angelSprite, s.currentAngel with
  | some spriteId, some angel =>
    let screenPos := s.calculateScreenPosition s.horizontalAngle s.verticalAngle
    let s1 :=
      if s.smoothingEnabled then
        s.smoothPositionTransition (s.host.positionOf spriteId) screenPos
      else
        { s with host := s.host.setPosition spriteId screenPos.1 screenPos.2 }
    { s1 with
      currentAngel := some { angel with screenX := screenPos.1, screenY := screenPos.2 } }
  | _, _ => s

/-- `formatAngleText(angle, prefix = '')`: rounds to whole degrees; a
rounded horizontal value of at least 360 displays as 0. -/
def formatAngleText (angle : ℚ) (p : String) : String :=
  let roundedAngle := jsRound angle
  let displayAngle := if p = "H" ∧ 360 ≤ roundedAngle then 0 else roundedAngle
  p ++ ": " ++ toString displayAngle ++ "°"

/-- `createAngelSprite()`: creates the sprite at the viewport centre and
builds the `currentAngel` object. -/
def AngelDisplaySystem.createAngelSprite (s : AngelDisplaySystem) : AngelDisplaySystem :=
  let centerX := s.sceneWidth / 2
  let centerY := s.sceneHeight / 2
  let (id, host1) := s.host.addImage centerX centerY
  { s with
    host := host1
    angelSprite := some id
    currentAngel := some
      { horizontalAngle := 0
        verticalAngle := 0
        sprite := id
        scale := 1/2
        screenX := centerX
        screenY := centerY
        isVisible := true
        alphaValue := 1
        name := "CurrentAngel"
        type := "current_angel"
        horizontalTextRef := none
        verticalTextRef := none } }

/-- `createAngleDisplayText()`: creates the two text primitives in the
top-right corner and, when a current angel exists, stores the references
on it. -/
def AngelDisplaySystem.createAngleDisplayText (s : AngelDisplaySystem) : AngelDisplaySystem :=
  let rightMargin := s.sceneWidth - 120
  let (hid, host1) := s.host.addText rightMargin 20 "H: 0°"
  let (vid, host2) := host1.addText rightMargin 60 "V: 0°"
  let s1 := { s with host := host2, horizontalText := some hid, verticalText := some vid }
  match s1.currentAngel with
  | some angel =>
    let angel' := { angel with horizontalTextRef := some hid, verticalTextRef := some vid }
    { s1 with currentAngel := some angel' }
  | none => s1

/-- `displayAngleValues(horizontal, vertical)`: recreates the text
primitives when either is missing; otherwise formats and sets both labels. -/
def AngelDisplaySystem.displayAngleValues (s : AngelDisplaySystem)
    (horizontal vertical : ℚ) : AngelDisplaySystem :=
  match s.horizontalText, s.verticalText with
  | some hid, some vid =>
    let horizontalLabel := formatAngleText horizontal "H"
    let verticalLabel := formatAngleText vertical "V"
    { s with host := (s.host.setText hid horizontalLabel).setText vid verticalLabel }
  | _, _ => s.createAngleDisplayText

/-- `updateCurrentAngel(orientation)` at `Date.now() = now`: rate-limited
pipeline. -/
def AngelDisplaySystem.updateCurrentAngel (s : AngelDisplaySystem)
    (orientation : OrientationEventData) (now : ℚ) : AngelDisplaySystem :=
  if now - s.lastUpdateTime < s.updateInterval then s
  else
    let s1 := { s with lastUpdateTime := now }
    let sphericalCoords := s1.convertToSphericalCoordinates orientation
    let s2 := { s1 with
      horizontalAngle := sphericalCoords.horizontal
      verticalAngle := sphericalCoords.vertical }
    let s3 :=
      match s2.currentAngel with
      | some angel =>
        let angel' :=
          { angel with
            horizontalAngle := s2.horizontalAngle
            verticalAngle := s2.verticalAngle }
        { s2 with currentAngel := some angel' }
      | none => s2
    let s4 := s3.renderAngelAtPosition
    s4.displayAngleValues s4.horizontalAngle s4.verticalAngle

/-- `initializeDisplay()` at `Date.now() = now`. -/
def AngelDisplaySystem.initDisplay (s : AngelDisplaySystem) (now : ℚ) : AngelDisplaySystem :=
  let s1 := s.createAngelSprite
  let s2 := s1.createAngleDisplayText
  s2.updateCurrentAngel { alpha := some 0, beta := some 0, gamma := some 0 } now

/-- The snapshot returned by `getCurrentAngelState()`. -/
structure AngelState where
  horizontalAngle : ℚ
  verticalAngle : ℚ
  currentAngel : Option Angel
  isVisible : Bool
  screenPosition : ℚ × ℚ
deriving DecidableEq

/-- `getCurrentAngelState()`. -/
def AngelDisplaySystem.getCurrentAngelState (s : AngelDisplaySystem) : AngelState where
  horizontalAngle := s.horizontalAngle
  verticalAngle := s.verticalAngle
  currentAngel := s.currentAngel
  isVisible :=
    match s.currentAngel with
    | some angel => angel.isVisible
    | none => false
  screenPosition :=
    match s.currentAngel with
    | some angel => (angel.screenX, angel.screenY)
    | none => (0, 0)

/-- `setSmoothingEnabled(enabled)`. -/
def AngelDisplaySystem.setSmoothingEnabled (s : AngelDisplaySystem)
    (enabled : Bool) : AngelDisplaySystem :=
  { s with smoothingEnabled := enabled }

/-- `setDisplayUpdateRate(fps)`: accepts only `0 < fps ≤ 120`. -/
def AngelDisplaySystem.setDisplayUpdateRate (s : AngelDisplaySystem)
    (fps : ℚ) : AngelDisplaySystem :=
  if 0 < fps ∧ fps ≤ 120 then
    { s with displayUpdateRate := fps, updateInterval := 1000 / fps }
  else s

/-- `destroy()`: releases whichever of the three primitives exist and
clears all references. -/
def AngelDisplaySystem.destroy (s : AngelDisplaySystem) : AngelDisplaySystem :=
  let host1 :=
    match s.angelSprite with
    | some id => s.host.destroyRes id
    | none => s.host
  let host2 :=
    match s.horizontalText with
    | some id => host1.destroyRes id
    | none => host1
  let host3 :=
    match s.verticalText with
    | some id => host2.destroyRes id
    | none => host2
  { s with
    host := host3
    currentAngel := none
    angelSprite := none
    horizontalText := none
    verticalText := none }

/-! Range lemmas for the relative-orientation normalization loops. -/

/-- The first loop always ends at or below 180. -/
theorem relWhileGt_le (r : ℚ) : relWhileGt r ≤ 180 := by
  induction r using relWhileGt.induct with
  | case1 r h ih => rw [relWhileGt_of_gt h]; exact ih
  | case2 r h => rw [relWhileGt_of_le (not_lt.mp h)]; exact not_lt.mp h

/-- The second loop always ends at or above −180. -/
theorem relWhileLt_ge (r : ℚ) : -180 ≤ relWhileLt r := by
  induction r using relWhileLt.induct with
  | case1 r h ih => rw [relWhileLt_of_lt h]; exact ih
  | case2 r h => rw [relWhileLt_of_ge (not_lt.mp h)]; exact not_lt.mp h

/-- The second loop never pushes a value that is at most 180 above 180. -/
theorem relWhileLt_le (r : ℚ) : r ≤ 180 → relWhileLt r ≤ 180 := by
  induction r using relWhileLt.induct with
  | case1 r h ih =>
    intro _
    rw [relWhileLt_of_lt h]
    exact ih (by linarith)
  | case2 r h =>
    intro hr
    rw [relWhileLt_of_ge (not_lt.mp h)]
    exact hr

/-- The first loop only subtracts whole turns. -/
theorem relWhileGt_sub_turns (r : ℚ) : ∃ k : ℤ, relWhileGt r = r - 360 * k := by
  induction r using relWhileGt.induct with
  | case1 r h ih =>
    obtain ⟨k, hk⟩ := ih
    exact ⟨k + 1, by rw [relWhileGt_of_gt h, hk]; push_cast; ring⟩
  | case2 r h => exact ⟨0, by rw [relWhileGt_of_le (not_lt.mp h)]; push_cast; ring⟩

/-- The second loop only adds whole turns. -/
theorem relWhileLt_add_turns (r : ℚ) : ∃ k : ℤ, relWhileLt r = r + 360 * k := by
  induction r using relWhileLt.induct with
  | case1 r h ih =>
    obtain ⟨k, hk⟩ := ih
    exact ⟨k + 1, by rw [relWhileLt_of_lt h, hk]; push_cast; ring⟩
  | case2 r h => exact ⟨0, by rw [relWhileLt_of_ge (not_lt.mp h)]; push_cast; ring⟩

/-- C3, counterexample: with `currentOrientation = 90` and
`referenceHorizon = 270` the difference is exactly −180 and neither loop
adjusts it, so the result −180 lies outside the claimed half-open interval
(−180, 180]. -/
theorem C3_counterexample :
    ({ OrientationManager.new with
        currentOrientation := 90, referenceHorizon := 270 } :
      OrientationManager).getCurrentRelativeOrientation = -180 ∧
    ¬ (-180 <
        ({ OrientationManager.new with
            currentOrientation := 90, referenceHorizon := 270 } :
          OrientationManager).getCurrentRelativeOrientation) := by
  have h : ({ OrientationManager.new with
      currentOrientation := 90, referenceHorizon := 270 } :
    OrientationManager).getCurrentRelativeOrientation = -180 := by
    norm_num [OrientationManager.getCurrentRelativeOrientation,
      relWhileGt_of_le, relWhileLt_of_ge]
  exact ⟨h, by rw [h]; norm_num⟩

/-- C3 (amended): `getCurrentRelativeOrientation()` returns
`currentOrientation - referenceHorizon` adjusted by whole turns of 360 into
the *closed* interval [−180, 180] (a difference of exactly −180 is returned
as −180, not 180); the wrap-around examples current=10/reference=350 → 20
and current=270/reference=90 → 180 hold. -/
theorem C3_relative_orientation_range (m : OrientationManager) :
    -180 ≤ m.getCurrentRelativeOrientation ∧
    m.getCurrentRelativeOrientation ≤ 180 ∧
    (∃ k : ℤ, m.getCurrentRelativeOrientation
        = m.currentOrientation - m.referenceHorizon + 360 * k) ∧
    ({ OrientationManager.new with
        currentOrientation := 10, referenceHorizon := 350 } :
      OrientationManager).getCurrentRelativeOrientation = 20 ∧
    ({ OrientationManager.new with
        currentOrientation := 270, referenceHorizon := 90 } :
      OrientationManager).getCurrentRelativeOrientation = 180 := by
  refine ⟨relWhileLt_ge _, relWhileLt_le _ (relWhileGt_le _), ?_, ?_, ?_⟩
  · obtain ⟨k₁, hk₁⟩ := relWhileGt_sub_turns (m.currentOrientation - m.referenceHorizon)
    obtain ⟨k₂, hk₂⟩ := relWhileLt_add_turns
      (relWhileGt (m.currentOrientation - m.referenceHorizon))
    refine ⟨k₂ - k₁, ?_⟩
    rw [OrientationManager.getCurrentRelativeOrientation, hk₂, hk₁]
    push_cast; ring
  · norm_num [OrientationManager.getCurrentRelativeOrientation,
      relWhileGt_of_le, relWhileGt_of_gt, relWhileLt_of_ge, relWhileLt_of_lt]
  · norm_num [OrientationManager.getCurrentRelativeOrientation,
      relWhileGt_of_le, relWhileGt_of_gt, relWhileLt_of_ge, relWhileLt_of_lt]

/-- C4: an orientation event whose `alpha` is null is dropped entirely:
the manager is returned unchanged (every field) and no orientation-change
broadcast is emitted. -/
theorem C4_null_alpha_ignored (m : OrientationManager) (b g : Option ℚ) (now : ℚ) :
    m.handleOrientationChange { alpha := none, beta := b, gamma := g } now = (m, none) :=
  rfl

/-- C9: `calculateScreenPosition` maps `(h, v)` to
`x = (h / 360) · W` and `y = (1 − (v + 90)/180) · H`, and in particular
`(0,0) ↦ (0, H/2)`, `(180,0) ↦ (W/2, H/2)`, `(0,90) ↦ y = 0`,
`(0,−90) ↦ y = H`. -/
theorem C9_screen_mapping (s : AngelDisplaySystem) (h v : ℚ) :
    s.calculateScreenPosition h v
      = (h / 360 * s.sceneWidth, (1 - (v + 90) / 180) * s.sceneHeight) ∧
    (s.calculateScreenPosition 0 0).1 = 0 ∧
    (s.calculateScreenPosition 0 0).2 = s.sceneHeight / 2 ∧
    (s.calculateScreenPosition 180 0).1 = s.sceneWidth / 2 ∧
    (s.calculateScreenPosition 180 0).2 = s.sceneHeight / 2 ∧
    (s.calculateScreenPosition 0 90).2 = 0 ∧
    (s.calculateScreenPosition 0 (-90)).2 = s.sceneHeight := by
  refine ⟨rfl, ?_, ?_, ?_, ?_, ?_, ?_⟩ <;>
    · simp only [AngelDisplaySystem.calculateScreenPosition]
      norm_num
      try ring

/-- C10: after `destroy()`, `getCurrentAngelState()` returns the last
stored angles together with `currentAngel = null`, `isVisible = false`,
and screen position `(0, 0)`, for any prior history. -/
theorem C10_state_after_destroy (s : AngelDisplaySystem) :
    s.destroy.getCurrentAngelState
      = { horizontalAngle := s.horizontalAngle
          verticalAngle := s.verticalAngle
          currentAngel := none
          isVisible := false
          screenPosition := (0, 0) } :=
  rfl

/-- C7, counterexample: the exact negative half −45.5 rounds to −45 (the
integer of *smaller* magnitude), because `Math.round` rounds halves toward
positive infinity, so "round half away from zero" fails there. -/
theorem C7_counterexample :
    (AngelDisplaySystem.new 800 600).calculateVerticalAngle (some (-91/2)) = -45 ∧
    ((-45 : ℚ) ≠ -46) := by
  constructor
  · norm_num [AngelDisplaySystem.calculateVerticalAngle, AngelDisplaySystem.new, jsRound]
  · norm_num

/-- C7 (amended): angle rounding in conversion and label formatting is
JavaScript `Math.round`, i.e. round half toward positive infinity: within
half a unit of the input, with 45.7→46, 45.3→45, −45.3→−45, −30.6→−31 as
claimed, but an exact negative half such as −45.5 rounds up to −45. -/
theorem C7_rounding_half_up :
    (∀ q : ℚ, q - 1/2 < (jsRound q : ℚ) ∧ (jsRound q : ℚ) ≤ q + 1/2) ∧
    (AngelDisplaySystem.new 800 600).calculateVerticalAngle (some (457/10)) = 46 ∧
    (AngelDisplaySystem.new 800 600).calculateVerticalAngle (some (453/10)) = 45 ∧
    (AngelDisplaySystem.new 800 600).calculateVerticalAngle (some (-453/10)) = -45 ∧
    (AngelDisplaySystem.new 800 600).calculateVerticalAngle (some (-306/10)) = -31 ∧
    (AngelDisplaySystem.new 800 600).calculateVerticalAngle (some (-91/2)) = -45 ∧
    (AngelDisplaySystem.new 800 600).calculateHorizontalAngle (some (457/10)) = 46 ∧
    formatAngleText (457/10) "H" = "H: 46°" ∧
    formatAngleText (-306/10) "V" = "V: -31°" ∧
    formatAngleText (-91/2) "V" = "V: -45°" := by
  refine ⟨?_, ?_, ?_, ?_, ?_, ?_, ?_, ?_, ?_, ?_⟩
  · intro q
    constructor
    · have := Int.lt_floor_add_one (q + 1/2)
      unfold jsRound
      push_cast at this ⊢
      linarith
    · have := Int.floor_le (q + 1/2)
      unfold jsRound
      push_cast at this ⊢
      linarith
  · norm_num [AngelDisplaySystem.calculateVerticalAngle, AngelDisplaySystem.new, jsRound]
  · norm_num [AngelDisplaySystem.calculateVerticalAngle, AngelDisplaySystem.new, jsRound]
  · norm_num [AngelDisplaySystem.calculateVerticalAngle, AngelDisplaySystem.new, jsRound]
  · norm_num [AngelDisplaySystem.calculateVerticalAngle, AngelDisplaySystem.new, jsRound]
  · norm_num [AngelDisplaySystem.calculateVerticalAngle, AngelDisplaySystem.new, jsRound]
  · norm_num [AngelDisplaySystem.calculateHorizontalAngle, AngelDisplaySystem.new,
      AngelDisplaySystem.handleAngleWrapAround, wrapWhileGe_of_lt, wrapWhileNeg_of_ge, jsRound]
  · have hr : jsRound (457/10) = 46 := by norm_num [jsRound]
    simp only [formatAngleText, hr]
    rfl
  · have hr : jsRound (-306/10) = -31 := by norm_num [jsRound]
    simp only [formatAngleText, hr]
    rfl
  · have hr : jsRound (-91/2) = -45 := by norm_num [jsRound]
    simp only [formatAngleText, hr]
    rfl

/-- C1, counterexample: an explicit non-granted permission result makes
`initialize()` notify the permission subscribers twice with `false` (once
inside `requestPermissionImmediately`, once again in the `else` branch of
`initialize`), not exactly once. -/
theorem C1_counterexample :
    (OrientationManager.new.initManager (.resolves "denied") false).permissionNotifs
      = [false, false] ∧
    (OrientationManager.new.initManager (.resolves "denied") false).permissionNotifs.length
      ≠ 1 := by
  decide

/-- C1 (amended): over the five permission outcomes of `initialize()`, the
permission subscribers see: exactly one `true` broadcast on an explicit
grant and on an absent request capability; two `false` broadcasts on an
explicit non-granted result and on a thrown/rejected request; and no
broadcast at all when the sensor API is absent. -/
theorem C1_permission_notifications (m : OrientationManager) (screenVertical : Bool) :
    (m.initManager (.resolves "granted") screenVertical).permissionNotifs = [true] ∧
    (m.initManager .noRequestCapability screenVertical).permissionNotifs = [true] ∧
    (∀ p : String, p ≠ "granted" →
      (m.initManager (.resolves p) screenVertical).permissionNotifs = [false, false]) ∧
    (m.initManager .rejects screenVertical).permissionNotifs = [false, false] ∧
    (m.initManager .unsupported screenVertical).permissionNotifs = [] := by
  refine ⟨?_, ?_, ?_, ?_, ?_⟩
  · simp [OrientationManager.initManager, OrientationManager.requestPermissionImmediately,
      OrientationManager.startContinuousMonitoring]
  · simp [OrientationManager.initManager, OrientationManager.requestPermissionImmediately,
      OrientationManager.startContinuousMonitoring]
  · intro p hp
    have hd : decide (p = "granted") = false := decide_eq_false hp
    simp [OrientationManager.initManager, OrientationManager.requestPermissionImmediately, hd]
  · simp [OrientationManager.initManager, OrientationManager.requestPermissionImmediately]
  · simp [OrientationManager.initManager]

/-- C1 witness: the amended theorem applied at the denied outcome. -/
theorem C1_permission_notifications_witness :
    (OrientationManager.new.initManager (.resolves "denied") true).permissionNotifs
      = [false, false] :=
  (C1_permission_notifications OrientationManager.new true).2.2.1 "denied" (by decide)

/-- C2, counterexample: with the default factor 0.2 and accepted samples
0 then 200, the second accepted sample is *not* smoothed (the seeding test
is `currentSmoothed === 0`, not "is this the first sample"), yielding 200
instead of the EMA value 40. -/
theorem C2_counterexample :
    (let m0 : OrientationManager :=
      { OrientationManager.new with isVerticalOrientation := true }
     let m1 := (m0.handleOrientationChange
        { alpha := some 0, beta := some 0, gamma := some 0 } 1).1
     let m2 := (m1.handleOrientationChange
        { alpha := some 200, beta := some 0, gamma := some 0 } 2).1
     m1.currentSmoothed = 0 ∧ m1.smoothingFactor = 1/5 ∧ m2.currentSmoothed = 200 ∧
       m2.currentSmoothed
         ≠ m1.currentSmoothed * (1 - m1.smoothingFactor) + 200 * m1.smoothingFactor) := by
  norm_num [OrientationManager.handleOrientationChange, OrientationManager.new]

/-- C2 (amended): an accepted sample taken while `currentSmoothed = 0`
(in particular the first accepted sample) seeds `currentSmoothed` directly
with the converted raw value; an accepted sample taken while
`currentSmoothed ≠ 0` applies `smoothed·(1−f) + raw·f`; after every
accepted sample `currentOrientation` equals `currentSmoothed`; with
`f = 0.5`, samples 100 then 200 yield smoothed 100 then 150. -/
theorem C2_ema_smoothing :
    (∀ (m : OrientationManager) (a now : ℚ) (b g : Option ℚ),
      m.isVerticalOrientation = true →
      ((m.handleOrientationChange { alpha := some a, beta := b, gamma := g } now).1.currentSmoothed
          = if m.currentSmoothed = 0 then (if a < 0 then a + 360 else a)
            else m.currentSmoothed * (1 - m.smoothingFactor)
              + (if a < 0 then a + 360 else a) * m.smoothingFactor) ∧
      (m.handleOrientationChange { alpha := some a, beta := b, gamma := g } now).1.currentOrientation
        = (m.handleOrientationChange { alpha := some a, beta := b, gamma := g } now).1.currentSmoothed) ∧
    (let m0 : OrientationManager :=
      { OrientationManager.new with isVerticalOrientation := true, smoothingFactor := 1/2 }
     let m1 := (m0.handleOrientationChange
        { alpha := some 100, beta := some 0, gamma := some 0 } 1).1
     let m2 := (m1.handleOrientationChange
        { alpha := some 200, beta := some 0, gamma := some 0 } 2).1
     m1.currentSmoothed = 100 ∧ m2.currentSmoothed = 150) := by
  constructor
  · intro m a now b g hv
    constructor
    · simp [OrientationManager.handleOrientationChange, hv]
    · simp [OrientationManager.handleOrientationChange, hv]
  · norm_num [OrientationManager.handleOrientationChange, OrientationManager.new]

/-- C2 witness: the step characterization applied to a concrete accepted
sample. -/
theorem C2_ema_smoothing_witness :
    (({ OrientationManager.new with isVerticalOrientation := true } :
        OrientationManager).handleOrientationChange
      { alpha := some 100, beta := some 0, gamma := some 0 } 1).1.currentSmoothed
      = if (0 : ℚ) = 0 then (if (100 : ℚ) < 0 then 100 + 360 else 100)
        else 0 * (1 - 1/5) + (if (100 : ℚ) < 0 then 100 + 360 else 100) * (1/5) := by
  have h := (C2_ema_smoothing.1
    { OrientationManager.new with isVerticalOrientation := true } 100 1
    (some 0) (some 0) rfl).1
  exact h


/-! Field-preservation lemmas for the rendering pipeline steps, used to
reason about `updateCurrentAngel` without fixing the render state. -/

theorem renderAngel_lastUpdateTime (s : AngelDisplaySystem) :
    s.renderAngelAtPosition.lastUpdateTime = s.lastUpdateTime := by
  unfold AngelDisplaySystem.renderAngelAtPosition
  cases hs : s.angelSprite with
  | none => simp
  | some sid =>
    cases ha : s.currentAngel with
    | none => simp
    | some angel =>
      cases hb : s.smoothingEnabled <;>
        simp [hb, AngelDisplaySystem.smoothPositionTransition, hs]

theorem renderAngel_updateInterval (s : AngelDisplaySystem) :
    s.renderAngelAtPosition.updateInterval = s.updateInterval := by
  unfold AngelDisplaySystem.renderAngelAtPosition
  cases hs : s.angelSprite with
  | none => simp
  | some sid =>
    cases ha : s.currentAngel with
    | none => simp
    | some angel =>
      cases hb : s.smoothingEnabled <;>
        simp [hb, AngelDisplaySystem.smoothPositionTransition, hs]

theorem renderAngel_horizontalAngle (s : AngelDisplaySystem) :
    s.renderAngelAtPosition.horizontalAngle = s.horizontalAngle := by
  unfold AngelDisplaySystem.renderAngelAtPosition
  cases hs : s.angelSprite with
  | none => simp
  | some sid =>
    cases ha : s.currentAngel with
    | none => simp
    | some angel =>
      cases hb : s.smoothingEnabled <;>
        simp [hb, AngelDisplaySystem.smoothPositionTransition, hs]

theorem renderAngel_verticalAngle (s : AngelDisplaySystem) :
    s.renderAngelAtPosition.verticalAngle = s.verticalAngle := by
  unfold AngelDisplaySystem.renderAngelAtPosition
  cases hs : s.angelSprite with
  | none => simp
  | some sid =>
    cases ha : s.currentAngel with
    | none => simp
    | some angel =>
      cases hb : s.smoothingEnabled <;>
        simp [hb, AngelDisplaySystem.smoothPositionTransition, hs]

theorem displayAngleValues_lastUpdateTime (s : AngelDisplaySystem) (x y : ℚ) :
    (s.displayAngleValues x y).lastUpdateTime = s.lastUpdateTime := by
  unfold AngelDisplaySystem.displayAngleValues AngelDisplaySystem.createAngleDisplayText
  cases hh : s.horizontalText <;> cases hv : s.verticalText <;>
    cases s.currentAngel <;> simp [RenderHost.addText]

theorem displayAngleValues_updateInterval (s : AngelDisplaySystem) (x y : ℚ) :
    (s.displayAngleValues x y).updateInterval = s.updateInterval := by
  unfold AngelDisplaySystem.displayAngleValues AngelDisplaySystem.createAngleDisplayText
  cases hh : s.horizontalText <;> cases hv : s.verticalText <;>
    cases s.currentAngel <;> simp [RenderHost.addText]

theorem displayAngleValues_horizontalAngle (s : AngelDisplaySystem) (x y : ℚ) :
    (s.displayAngleValues x y).horizontalAngle = s.horizontalAngle := by
  unfold AngelDisplaySystem.displayAngleValues AngelDisplaySystem.createAngleDisplayText
  cases hh : s.horizontalText <;> cases hv : s.verticalText <;>
    cases s.currentAngel <;> simp [RenderHost.addText]

theorem displayAngleValues_verticalAngle (s : AngelDisplaySystem) (x y : ℚ) :
    (s.displayAngleValues x y).verticalAngle = s.verticalAngle := by
  unfold AngelDisplaySystem.displayAngleValues AngelDisplaySystem.createAngleDisplayText
  cases hh : s.horizontalText <;> cases hv : s.verticalText <;>
    cases s.currentAngel <;> simp [RenderHost.addText]

/-- The rate-limit fast path of `updateCurrentAngel` is a complete no-op. -/
theorem updateCurrentAngel_noop {s : AngelDisplaySystem} {o : OrientationEventData} {t : ℚ}
    (h : t - s.lastUpdateTime < s.updateInterval) :
    s.updateCurrentAngel o t = s := by
  unfold AngelDisplaySystem.updateCurrentAngel
  rw [if_pos h]

/-- C8: a call to `updateCurrentAngel` earlier than `updateInterval` after
`lastUpdateTime` returns the state completely unchanged (the sample is
ignored); otherwise `lastUpdateTime` becomes `now`, the converted angles
are stored, and `updateInterval` is retained — so a second call within the
same interval changes nothing. -/
theorem C8_rate_limiting (s : AngelDisplaySystem) (o o₂ : OrientationEventData)
    (t₁ t₂ : ℚ) :
    (t₁ - s.lastUpdateTime < s.updateInterval → s.updateCurrentAngel o t₁ = s) ∧
    (¬ t₁ - s.lastUpdateTime < s.updateInterval →
      (s.updateCurrentAngel o t₁).lastUpdateTime = t₁ ∧
      (s.updateCurrentAngel o t₁).updateInterval = s.updateInterval ∧
      (s.updateCurrentAngel o t₁).horizontalAngle
        = (s.convertToSphericalCoordinates o).horizontal ∧
      (s.updateCurrentAngel o t₁).verticalAngle
        = (s.convertToSphericalCoordinates o).vertical ∧
      (t₂ - t₁ < s.updateInterval →
        (s.updateCurrentAngel o t₁).updateCurrentAngel o₂ t₂ = s.updateCurrentAngel o t₁)) := by
  constructor
  · exact fun h => updateCurrentAngel_noop h
  · intro h
    have hL : (s.updateCurrentAngel o t₁).lastUpdateTime = t₁ := by
      unfold AngelDisplaySystem.updateCurrentAngel
      rw [if_neg h]
      cases hc : s.currentAngel <;>
        simp [hc, displayAngleValues_lastUpdateTime, renderAngel_lastUpdateTime]
    have hI : (s.updateCurrentAngel o t₁).updateInterval = s.updateInterval := by
      unfold AngelDisplaySystem.updateCurrentAngel
      rw [if_neg h]
      cases hc : s.currentAngel <;>
        simp [hc, displayAngleValues_updateInterval, renderAngel_updateInterval]
    have hH : (s.updateCurrentAngel o t₁).horizontalAngle
        = (s.convertToSphericalCoordinates o).horizontal := by
      unfold AngelDisplaySystem.updateCurrentAngel
      rw [if_neg h]
      cases hc : s.currentAngel <;>
        simp [hc, displayAngleValues_horizontalAngle, renderAngel_horizontalAngle] <;>
        rfl
    have hV : (s.updateCurrentAngel o t₁).verticalAngle
        = (s.convertToSphericalCoordinates o).vertical := by
      unfold AngelDisplaySystem.updateCurrentAngel
      rw [if_neg h]
      cases hc : s.currentAngel <;>
        simp [hc, displayAngleValues_verticalAngle, renderAngel_verticalAngle] <;>
        rfl
    refine ⟨hL, hI, hH, hV, fun hlt => updateCurrentAngel_noop ?_⟩
    rw [hL, hI]
    exact hlt

/-- C8 witness: a first accepted call at t=100 on a fresh system, and a
second call 1 ms later that is discarded. -/
theorem C8_rate_limiting_witness :
    ((AngelDisplaySystem.new 800 600).updateCurrentAngel
        { alpha := some 90, beta := some 45, gamma := some 0 } 100).lastUpdateTime = 100 ∧
    (((AngelDisplaySystem.new 800 600).updateCurrentAngel
        { alpha := some 90, beta := some 45, gamma := some 0 } 100).updateCurrentAngel
        { alpha := some 180, beta := some 30, gamma := some 0 } 101)
      = (AngelDisplaySystem.new 800 600).updateCurrentAngel
          { alpha := some 90, beta := some 45, gamma := some 0 } 100 := by
  have h := (C8_rate_limiting (AngelDisplaySystem.new 800 600)
    { alpha := some 90, beta := some 45, gamma := some 0 }
    { alpha := some 180, beta := some 30, gamma := some 0 } 100 101).2
    (by norm_num [AngelDisplaySystem.new])
  refine ⟨h.1, h.2.2.2.2 ?_⟩
  have hint : (AngelDisplaySystem.new 800 600).updateInterval = 50/3 := by
    norm_num [AngelDisplaySystem.new]
  rw [hint]
  norm_num

/-- C5, counterexample: calling `displayAngleValues` after `destroy()` (or
before the display is created) re-creates the two text primitives instead
of leaving all tracked resources released: the destroyed system has no live
resources, but after the call two text resources exist and are referenced. -/
theorem C5_counterexample :
    (AngelDisplaySystem.new 800 600).destroy.host.live = [] ∧
    ((AngelDisplaySystem.new 800 600).destroy.displayAngleValues 90 45).horizontalText
      = some 0 ∧
    ((AngelDisplaySystem.new 800 600).destroy.displayAngleValues 90 45).host.live
      = [0, 1] := by
  constructor
  · rfl
  constructor
  · rfl
  · rfl

/-- C5 (amended): rendering operations on missing primitives never throw
(all operations are total); `renderAngelAtPosition` and
`smoothPositionTransition` are no-ops without the sprite; `destroy()` is
idempotent and leaves every reference cleared; but `displayAngleValues`
with a missing text primitive re-creates the text elements (running
`createAngleDisplayText` again) rather than leaving resources released. -/
theorem C5_missing_resources (s : AngelDisplaySystem)
    (fromPos toPos : ℚ × ℚ) (x y : ℚ) :
    (s.angelSprite = none → s.renderAngelAtPosition = s) ∧
    (s.angelSprite = none → s.smoothPositionTransition fromPos toPos = s) ∧
    s.destroy.destroy = s.destroy ∧
    s.destroy.angelSprite = none ∧
    s.destroy.horizontalText = none ∧
    s.destroy.verticalText = none ∧
    s.destroy.currentAngel = none ∧
    (s.horizontalText = none ∨ s.verticalText = none →
      s.displayAngleValues x y = s.createAngleDisplayText) := by
  refine ⟨?_, ?_, ?_, rfl, rfl, rfl, rfl, ?_⟩
  · intro h
    unfold AngelDisplaySystem.renderAngelAtPosition
    simp [h]
  · intro h
    unfold AngelDisplaySystem.smoothPositionTransition
    simp [h]
  · cases s
    rfl
  · intro h
    unfold AngelDisplaySystem.displayAngleValues
    rcases h with h | h
    · simp [h]
    · rw [h]
      cases s.horizontalText <;> simp

/-- C5 witness: the no-op and recreation facts applied to a fresh system
(whose sprite and text primitives are not yet created). -/
theorem C5_missing_resources_witness :
    (AngelDisplaySystem.new 800 600).renderAngelAtPosition
      = AngelDisplaySystem.new 800 600 ∧
    (AngelDisplaySystem.new 800 600).displayAngleValues 1 2
      = (AngelDisplaySystem.new 800 600).createAngleDisplayText := by
  have h := C5_missing_resources (AngelDisplaySystem.new 800 600) (0, 0) (1, 1) 1 2
  exact ⟨h.1 rfl, h.2.2.2.2.2.2.2 (Or.inl rfl)⟩

/-- The operations of the C6 claim: accepted samples (alpha value and
timestamp), `setReferenceHorizon` with or without an argument, and
`setSmoothingFactor`. -/
inductive OMOp where
  | sample (a : ℚ) (t : ℚ)
  | setRef (v : Option ℚ)
  | setSmooth (f : ℚ)
deriving DecidableEq

/-- Running one operation on the manager. -/
def applyOMOp (m : OrientationManager) (op : OMOp) : OrientationManager :=
  match op with
  | .sample a t =>
    (m.handleOrientationChange { alpha := some a, beta := none, gamma := none } t).1
  | .setRef v => m.setReferenceHorizon v
  | .setSmooth f => m.setSmoothingFactor f

/-- Input restrictions forced by the counterexample: sample alpha values
within the sensor range [0, 360), explicit reference arguments within
[0, 360]; smoothing updates are unrestricted (out-of-range ones are
rejected by the code). -/
def OMOpValid : OMOp → Prop
  | .sample a _ => 0 ≤ a ∧ a < 360
  | .setRef (some v) => 0 ≤ v ∧ v ≤ 360
  | .setRef none => True
  | .setSmooth _ => True

instance : DecidablePred OMOpValid := fun op =>
  match op with
  | .sample a _ => inferInstanceAs (Decidable (0 ≤ a ∧ a < 360))
  | .setRef (some v) => inferInstanceAs (Decidable (0 ≤ v ∧ v ≤ 360))
  | .setRef none => inferInstanceAs (Decidable True)
  | .setSmooth _ => inferInstanceAs (Decidable True)

/-- The state invariant of the C6 claim. -/
def OMInv (m : OrientationManager) : Prop :=
  0 ≤ m.referenceHorizon ∧ m.referenceHorizon ≤ 360 ∧
  0 ≤ m.currentRaw ∧ m.currentRaw ≤ 360 ∧
  0 ≤ m.currentSmoothed ∧ m.currentSmoothed ≤ 360 ∧
  0 ≤ m.currentOrientation ∧ m.currentOrientation ≤ 360 ∧
  1/10 ≤ m.smoothingFactor ∧ m.smoothingFactor ≤ 3/10

instance : DecidablePred OMInv := fun m =>
  inferInstanceAs (Decidable (0 ≤ m.referenceHorizon ∧ _))

/-- Field characterization of an accepted sample (device vertical, alpha
present). -/
theorem handleOrientationChange_accepted_fields (m : OrientationManager)
    (a now : ℚ) (b g : Option ℚ) (hv : m.isVerticalOrientation = true) :
    ((m.handleOrientationChange { alpha := some a, beta := b, gamma := g } now).1.referenceHorizon
        = m.referenceHorizon) ∧
    ((m.handleOrientationChange { alpha := some a, beta := b, gamma := g } now).1.smoothingFactor
        = m.smoothingFactor) ∧
    ((m.handleOrientationChange { alpha := some a, beta := b, gamma := g } now).1.currentRaw
        = a) ∧
    ((m.handleOrientationChange { alpha := some a, beta := b, gamma := g } now).1.currentSmoothed
        = (if m.currentSmoothed = 0 then (if a < 0 then a + 360 else a)
           else m.currentSmoothed * (1 - m.smoothingFactor)
             + (if a < 0 then a + 360 else a) * m.smoothingFactor)) ∧
    ((m.handleOrientationChange { alpha := some a, beta := b, gamma := g } now).1.currentOrientation
        = (m.handleOrientationChange { alpha := some a, beta := b, gamma := g } now).1.currentSmoothed) := by
  refine ⟨?_, ?_, ?_, ?_, ?_⟩ <;> simp [OrientationManager.handleOrientationChange, hv]

/-- A sample arriving while the device is not vertical is dropped. -/
theorem handleOrientationChange_not_vertical (m : OrientationManager)
    (a now : ℚ) (b g : Option ℚ) (hv : m.isVerticalOrientation = false) :
    m.handleOrientationChange { alpha := some a, beta := b, gamma := g } now = (m, none) := by
  simp [OrientationManager.handleOrientationChange, hv]

/-- One valid operation preserves the invariant. -/
theorem applyOMOp_inv {m : OrientationManager} {op : OMOp}
    (hm : OMInv m) (hop : OMOpValid op) : OMInv (applyOMOp m op) := by
  obtain ⟨h1, h2, h3, h4, h5, h6, h7, h8, h9, h10⟩ := hm
  cases op with
  | sample a t =>
    obtain ⟨ha0, ha1⟩ := hop
    show OMInv (m.handleOrientationChange
      { alpha := some a, beta := none, gamma := none } t).1
    cases hv : m.isVerticalOrientation with
    | false =>
      have hdrop := handleOrientationChange_not_vertical m a t none none hv
      rw [hdrop]
      exact ⟨h1, h2, h3, h4, h5, h6, h7, h8, h9, h10⟩
    | true =>
      obtain ⟨e1, e2, e3, e4, e5⟩ := handleOrientationChange_accepted_fields
        m a t none none hv
      have hA : ¬ a < 0 := not_lt.mpr ha0
      rw [if_neg hA] at e4
      have hsm0 : 0 ≤ (m.handleOrientationChange
          { alpha := some a, beta := none, gamma := none } t).1.currentSmoothed := by
        rw [e4]
        by_cases hz : m.currentSmoothed = 0
        · rw [if_pos hz]; exact ha0
        · rw [if_neg hz]
          have c1 := mul_nonneg h5 (by linarith : (0:ℚ) ≤ 1 - m.smoothingFactor)
          have c2 := mul_nonneg ha0 (by linarith : (0:ℚ) ≤ m.smoothingFactor)
          linarith
      have hsm1 : (m.handleOrientationChange
          { alpha := some a, beta := none, gamma := none } t).1.currentSmoothed ≤ 360 := by
        rw [e4]
        by_cases hz : m.currentSmoothed = 0
        · rw [if_pos hz]; linarith
        · rw [if_neg hz]
          have c1 : m.currentSmoothed * (1 - m.smoothingFactor)
              ≤ 360 * (1 - m.smoothingFactor) :=
            mul_le_mul_of_nonneg_right h6 (by linarith)
          have c2 : a * m.smoothingFactor ≤ 360 * m.smoothingFactor :=
            mul_le_mul_of_nonneg_right (le_of_lt ha1) (by linarith)
          nlinarith
      refine ⟨?_, ?_, ?_, ?_, ?_, ?_, ?_, ?_, ?_, ?_⟩
      · rw [e1]; exact h1
      · rw [e1]; exact h2
      · rw [e3]; exact ha0
      · rw [e3]; exact le_of_lt ha1
      · exact hsm0
      · exact hsm1
      · rw [e5]; exact hsm0
      · rw [e5]; exact hsm1
      · rw [e2]; exact h9
      · rw [e2]; exact h10
  | setRef v =>
    show OMInv (m.setReferenceHorizon v)
    cases v with
    | some w =>
      obtain ⟨hw0, hw1⟩ := hop
      exact ⟨hw0, hw1, h3, h4, h5, h6, h7, h8, h9, h10⟩
    | none =>
      exact ⟨h7, h8, h3, h4, h5, h6, h7, h8, h9, h10⟩
  | setSmooth f =>
    show OMInv (m.setSmoothingFactor f)
    unfold OrientationManager.setSmoothingFactor
    by_cases hf : 1/10 ≤ f ∧ f ≤ 3/10
    · rw [if_pos hf]
      exact ⟨h1, h2, h3, h4, h5, h6, h7, h8, hf.1, hf.2⟩
    · rw [if_neg hf]
      exact ⟨h1, h2, h3, h4, h5, h6, h7, h8, h9, h10⟩

/-- Any sequence of valid operations preserves the invariant. -/
theorem foldl_applyOMOp_inv :
    ∀ (ops : List OMOp) (m : OrientationManager), OMInv m →
      (∀ op ∈ ops, OMOpValid op) → OMInv (ops.foldl applyOMOp m) := by
  intro ops
  induction ops with
  | nil => intro m hm _; exact hm
  | cons op rest ih =>
    intro m hm hops
    simp only [List.foldl_cons]
    exact ih _ (applyOMOp_inv hm (hops op (List.mem_cons_self op rest)))
      fun o ho => hops o (List.mem_cons_of_mem op ho)

/-- C6, counterexample: an accepted sample with a negative alpha is stored
in `currentRaw` unconverted (−90 ∉ [0, 360]), and `setReferenceHorizon`
accepts any explicit value (720 ∉ [0, 360]); the claim's invariant fails as
soon as such inputs appear. -/
theorem C6_counterexample :
    (({ OrientationManager.new with isVerticalOrientation := true } :
        OrientationManager).handleOrientationChange
      { alpha := some (-90), beta := some 0, gamma := some 0 } 1).1.currentRaw = -90 ∧
    ¬ (0 : ℚ) ≤ -90 ∧
    (OrientationManager.new.setReferenceHorizon (some 720)).referenceHorizon = 720 ∧
    ¬ (720 : ℚ) ≤ 360 := by
  refine ⟨?_, by norm_num, ?_, by norm_num⟩
  · norm_num [OrientationManager.handleOrientationChange, OrientationManager.new]
  · norm_num [OrientationManager.setReferenceHorizon]

/-- C6 (amended): starting from construction (with the vertical gate open
so samples are accepted), every sequence of accepted samples whose alpha
lies in the sensor range [0, 360), reference-horizon updates whose explicit
argument lies in [0, 360] (or with no argument), and arbitrary
smoothing-factor updates preserves the invariant: `referenceHorizon`,
`currentRaw`, `currentSmoothed`, `currentOrientation` all within 0–360 and
`0.1 ≤ smoothingFactor ≤ 0.3`; out-of-range smoothing updates are rejected
with the prior value retained. -/
theorem C6_state_invariants (ops : List OMOp)
    (hops : ∀ op ∈ ops, OMOpValid op) :
    OMInv (ops.foldl applyOMOp
      { OrientationManager.new with isVerticalOrientation := true }) ∧
    (∀ (m : OrientationManager) (f : ℚ),
      ¬ (1/10 ≤ f ∧ f ≤ 3/10) → m.setSmoothingFactor f = m) := by
  constructor
  · apply foldl_applyOMOp_inv ops _ _ hops
    norm_num [OMInv, OrientationManager.new]
  · intro m f hf
    unfold OrientationManager.setSmoothingFactor
    rw [if_neg hf]

/-- C6 witness: the invariant after a concrete mixed sequence, and the
rejection of one concrete out-of-range smoothing factor. -/
theorem C6_state_invariants_witness :
    OMInv ([OMOp.sample 90 1, OMOp.setRef (some 45), OMOp.setSmooth (1/4),
        OMOp.setSmooth 5, OMOp.setRef none].foldl applyOMOp
      { OrientationManager.new with isVerticalOrientation := true }) ∧
    OrientationManager.new.setSmoothingFactor 5 = OrientationManager.new := by
  have h := C6_state_invariants
    [OMOp.sample 90 1, OMOp.setRef (some 45), OMOp.setSmooth (1/4),
      OMOp.setSmooth 5, OMOp.setRef none]
    (by norm_num [OMOpValid])
  exact ⟨h.1, h.2 OrientationManager.new 5 (by norm_num)⟩
